import Mathlib

/- Shallow embedding of the query-resolution and confidence-ranking core of
the youtube-music-skill repository (src/__init__.py).  Python floats that
carry confidence scores are modelled as rationals, Python exceptions as an
explicit error type threaded through Except, and the external collaborators
(the ytmusicapi search client, the fuzzy matcher from mycroft.util.parse,
the localization lookup, and the regex resource files of the skill) as
parameters gathered in one structure. -/

/-- Python exceptions that the embedded code can raise. -/
inductive PyErr where
  | typeError
  | indexError
  | valueError
  | attributeError
deriving DecidableEq, Repr

/-- Match levels of the common play framework (CPSMatchLevel). -/
inductive CPSMatchLevel where
  | EXACT
  | TITLE
  | GENERIC
deriving DecidableEq, Repr

/-- One record of the external search response.  Records for the artists
filter carry the artist display name and a browseId; album records carry a
browseId; song records are unused by the source. -/
structure SearchResult where
  artist : String := ""
  browseId : String := ""
deriving DecidableEq, Repr

/-- The candidate dictionaries built by the resolvers in src/__init__.py.
Every dictionary in the source carries a type key; browseId, name and a
generic payload key appear in some of them. -/
structure Candidate where
  type : String
  browseId : Option String := none
  name : Option String := none
  payload : Option String := none
deriving DecidableEq, Repr

/-- A Python value as it appears in the data slot of a resolver result:
Python None, a float, or a candidate dictionary. -/
inductive PyData where
  | none
  | num (q : ℚ)
  | cand (c : Candidate)
deriving DecidableEq, Repr

/-- Python truthiness of a data slot: None and 0.0 are falsy, a non-zero
float and a (non-empty) dictionary are truthy. -/
def PyData.truthy : PyData → Bool
  | .none => false
  | .num q => q != 0
  | .cand _ => true

/-- Truthiness of the confidence slot, which is either Python None or a
float.  Mirrors the `if conf` guards of generic_query. -/
def confTruthy : Option ℚ → Bool
  | Option.none => false
  | some q => q != 0

/-- Source line 51: NOTHING_FOUND = (None, 0.0).  The comment above it in
the source says (confidence None, data None), but the second component of
the tuple in the code is the float 0.0, not None. -/
def NOTHING_FOUND : Option ℚ × PyData := (Option.none, PyData.num 0)

/-- Source line 54. -/
def DIRECT_RESPONSE_CONFIDENCE : ℚ := 8/10

/-- Source line 56. -/
def MATCH_CONFIDENCE : ℚ := 5/10

/-- Source lines 59-68: best_result(results) returns results[0]; indexing
an empty Python list raises IndexError. -/
def best_result : List (Option ℚ × PyData) → Except PyErr (Option ℚ × PyData)
  | [] => .error .indexError
  | r :: _ => .ok r

/-- External collaborators of the core, passed as parameters.  search is
the ytmusicapi client yt.search(query, filter); fm is fuzzy_match from
mycroft.util.parse; translateBy is the localized word returned by
self.translate applied to the word by; stripOnYoutube is the re.sub with
the on_youtube regex resource; matchAlbum, matchArtist and matchSong give
the named capture group of re.match with the album, artist and song regex
resources when the pattern matches.  The regex and vocabulary resource
files of the repository are not under src, so these four fields are
modelled from the spec (section 4.1: the named capture group when the
pattern matches, otherwise none).  publicPlaylist is likewise modelled
from the spec (section 4.3), because the method get_best_public_playlist
is called in generic_query but defined nowhere in the source file. -/
structure Oracle where
  search : String → String → List SearchResult
  fm : String → String → ℚ
  translateBy : String
  stripOnYoutube : String → String
  matchAlbum : String → Option String
  matchArtist : String → Option String
  matchSong : String → Option String
  publicPlaylist : String → Option ℚ × PyData

/-- Boolean prefix test on character lists. -/
def isPrefixList : List Char → List Char → Bool
  | [], _ => true
  | _ :: _, [] => false
  | p :: ps, c :: cs => p = c && isPrefixList ps cs

/-- Fuel-driven worker for pySplit.  Each step either consumes the
separator (at least one character) or one character, so fuel equal to the
length of the input plus one always suffices. -/
def splitAux : Nat → List Char → List Char → List Char → List (List Char)
  | 0, rest, _, acc => [acc.reverse ++ rest]
  | _ + 1, [], _, acc => [acc.reverse]
  | f + 1, c :: cs, sep, acc =>
      if isPrefixList sep (c :: cs) then
        acc.reverse :: splitAux f ((c :: cs).drop sep.length) sep []
      else
        splitAux f cs sep (c :: acc)

/-- Python str.split with a non-empty separator: split at every
non-overlapping occurrence, keeping empty pieces. -/
def pySplit (s sep : String) : List String :=
  (splitAux (s.data.length + 1) s.data sep.data []).map (fun cs => String.mk cs)

/-- Python substring membership, as in the expression testing whether the
word youtube occurs in the phrase. -/
def containsSub (s pat : String) : Bool :=
  (List.range (s.data.length + 1)).any (fun i => isPrefixList pat.data (s.data.drop i))

/-- Python str.strip: remove whitespace from both ends. -/
def pyStrip (s : String) : String :=
  String.mk (((s.data.dropWhile Char.isWhitespace).reverse.dropWhile Char.isWhitespace).reverse)

/-- Python str.lower. -/
def pyLower (s : String) : String :=
  String.mk (s.data.map Char.toLower)

/-- Test whether the regex alternation from source line 85, namely a
trailing parenthesized group or a trailing dash suffix anchored at the end
of the string, matches starting at position i.  The dot of the pattern
does not match a newline character. -/
def annotMatchAt (cs : List Char) (i : Nat) : Bool :=
  let n := cs.length
  (decide (cs.getD i ' ' = '(') && decide (i + 3 ≤ n) && decide (cs.getD (n - 1) ' ' = ')') &&
    ((cs.drop (i + 1)).take (n - i - 2)).all (fun c => c ≠ '\n')) ||
  (decide (cs.getD i ' ' = '-') && decide (i + 2 ≤ n) &&
    ((cs.drop (i + 1)).all (fun c => c ≠ '\n')))

/-- Source line 85: re.sub removing the leftmost match of the trailing
annotation pattern.  Since every match of the pattern extends to the end
of the string, the substitution keeps the prefix before the leftmost
match position. -/
def pySubAnnot (s : String) : String :=
  match (List.range s.data.length).find? (fun i => annotMatchAt s.data i) with
  | some i => String.mk (s.data.take i)
  | Option.none => s

/-- Source lines 70-87: best_confidence lowers the title, also computes a
version with the trailing annotation stripped (and then stripped of
surrounding whitespace), and returns the larger fuzzy_match score of the
two against the query. -/
def best_confidence (fm : String → String → ℚ) (title query : String) : ℚ :=
  let best := pyLower title
  let best_stripped := pyStrip (pySubAnnot best)
  max (fm best query) (fm best_stripped query)

/-- Source lines 391-392 of query_artist: the score plus the bonus,
clamped at 1.0.  The two statements of the source are factored into this
helper, which the spec names apply_bonus. -/
def apply_bonus (score bonus : ℚ) : ℚ :=
  min (score + bonus) 1

/-- Source lines 271-280: continue_playback returns the continuation
candidate with confidence 1.0 when the stripped phrase equals youtube,
otherwise NOTHING_FOUND.  The bonus argument is unused in the source. -/
def continue_playback (phrase : String) (_bonus : ℚ) : Option ℚ × PyData :=
  if pyStrip phrase = "youtube" then
    (some 1, PyData.cand { type := "continue" })
  else
    NOTHING_FOUND

/-- Source lines 376-400: query_artist adds 0.1 to the bonus, searches the
artists filter, and on a non-empty response scores the first record with
fuzzy_match against the lowered query plus the bonus, clamped at 1.0.  On
an empty response it returns NOTHING_FOUND. -/
def query_artist (ext : Oracle) (artist : String) (bonus : ℚ) : Option ℚ × PyData :=
  let bonus := bonus + 1/10
  match ext.search artist "artists" with
  | [] => NOTHING_FOUND
  | d0 :: _ =>
      let best := d0.artist
      let confidence := apply_bonus (ext.fm best (pyLower artist)) bonus
      (some confidence, PyData.cand { type := "artist", browseId := some d0.browseId })

/-- Source lines 423-429 of query_album: the search on the albums filter
and the fixed 0.7 confidence on any non-empty response. -/
def albumRest (ext : Oracle) (album_search : String) : Except PyErr (Option ℚ × PyData) :=
  match ext.search album_search "albums" with
  | [] => .ok NOTHING_FOUND
  | r :: _ => .ok (some (7/10), PyData.cand { type := "album", browseId := some r.browseId })

/-- Source lines 402-429: query_album splits the query on the localized by
connector surrounded by spaces.  When the split yields more than one part
the source unpacks it into exactly two variables, which raises ValueError
for three or more parts; with exactly two parts it builds the compound
search string and increments the bonus (the incremented bonus is never
used afterwards).  It then searches the albums filter: any non-empty
response gives the fixed confidence 0.7, an empty response gives
NOTHING_FOUND. -/
def query_album (ext : Oracle) (album : String) (bonus : ℚ) : Except PyErr (Option ℚ × PyData) :=
  let by_word := " " ++ ext.translateBy ++ " "
  let parts := pySplit album by_word
  match parts with
  | [a, b] =>
      let album_search := "*" ++ a ++ "* artist:" ++ b
      let _bonus := bonus + 1/10
      albumRest ext album_search
  | other =>
      if other.length > 1 then .error .valueError
      else albumRest ext album

/-- Source lines 451-473: query_song performs the same by splitting (with
the same ValueError on three or more parts), issues the songs search, and
then returns the Python value None, not a tuple, for every input.  The
value ok none models the plain None return of source line 473. -/
def query_song (ext : Oracle) (song : String) (bonus : ℚ) :
    Except PyErr (Option (Option ℚ × PyData)) :=
  let by_word := " " ++ ext.translateBy ++ " "
  let parts := pySplit song by_word
  match parts with
  | [a, b] =>
      let song_search := "*" ++ a ++ "* artist:" ++ b
      let _bonus := bonus
      let _res := ext.search song_search "songs"
      .ok Option.none
  | other =>
      if other.length > 1 then .error .valueError
      else
        let _res := ext.search song "songs"
        .ok Option.none

/-- Source lines 282-322: specific_query tries the album pattern first
(adding 0.1 to the bonus), then the artist pattern, then the song pattern,
and returns NOTHING_FOUND when none of them matches.  The result is an
optional pair because the song branch forwards the plain None returned by
query_song. -/
def specific_query (ext : Oracle) (phrase : String) (bonus : ℚ) :
    Except PyErr (Option (Option ℚ × PyData)) :=
  match ext.matchAlbum phrase with
  | some album =>
      match query_album ext album (bonus + 1/10) with
      | .error e => .error e
      | .ok r => .ok (some r)
  | Option.none =>
      match ext.matchArtist phrase with
      | some artist => .ok (some (query_artist ext artist bonus))
      | Option.none =>
          match ext.matchSong phrase with
          | some song => query_song ext song bonus
          | Option.none => .ok (some NOTHING_FOUND)

/-- The guard `if conf and conf > threshold` of generic_query: the
confidence slot must be truthy and above the threshold. -/
def passes (conf : Option ℚ) (threshold : ℚ) : Bool :=
  match conf with
  | Option.none => false
  | some q => q != 0 && q > threshold

/-- Source lines 324-374: generic_query runs the resolvers in the order
artist, track, album, public playlist over the whole phrase.  A result
above DIRECT_RESPONSE_CONFIDENCE is returned at once; a result above
MATCH_CONFIDENCE is appended to the accumulator; at the end best_result
takes index 0 of the accumulator (IndexError when it is empty).  The
track step unpacks the return value of query_song into two variables;
since query_song returns None, that unpacking raises TypeError. -/
def generic_query (ext : Oracle) (phrase : String) (bonus : ℚ) :
    Except PyErr (Option ℚ × PyData) :=
  let r1 := query_artist ext phrase bonus
  if passes r1.1 DIRECT_RESPONSE_CONFIDENCE then .ok r1
  else
    let results := if passes r1.1 MATCH_CONFIDENCE then [r1] else []
    match query_song ext phrase bonus with
    | .error e => .error e
    | .ok Option.none => .error .typeError
    | .ok (some r2) =>
        if passes r2.1 DIRECT_RESPONSE_CONFIDENCE then .ok r2
        else
          let results := results ++ (if passes r2.1 MATCH_CONFIDENCE then [r2] else [])
          match query_album ext phrase bonus with
          | .error e => .error e
          | .ok r3 =>
              if passes r3.1 DIRECT_RESPONSE_CONFIDENCE then .ok r3
              else
                let results := results ++ (if passes r3.1 MATCH_CONFIDENCE then [r3] else [])
                let r4 := ext.publicPlaylist phrase
                if passes r4.1 DIRECT_RESPONSE_CONFIDENCE then .ok r4
                else
                  let results := results ++ (if passes r4.1 MATCH_CONFIDENCE then [r4] else [])
                  best_result results

/-- Source lines 235-269: the directive building tail of
CPS_match_query_phrase.  With truthy data carrying one of the six listed
types, an explicit provider mention gives EXACT; otherwise the confidence
picks TITLE or GENERIC and the phrase is suffixed with on youtube.
Comparing a None confidence against a float would raise TypeError in
Python 3.  A type of continue gives EXACT on explicit mention and GENERIC
with the suffix otherwise; any other type gives GENERIC without the
suffix.  Falsy data makes the handler fall off the end, returning the
Python value None, modelled as ok none. -/
def directive (youtube_specified : Bool) (phrase : String) (confidence : Option ℚ)
    (data : PyData) : Except PyErr (Option (String × CPSMatchLevel × PyData)) :=
  if data.truthy then
    match data with
    | .cand c =>
        if c.type ∈ ["saved_tracks", "album", "artist", "track", "playlist", "show"] then
          if youtube_specified then
            .ok (some (phrase, CPSMatchLevel.EXACT, data))
          else
            match confidence with
            | Option.none => .error .typeError
            | some q =>
                let level :=
                  if q > 9/10 then CPSMatchLevel.TITLE
                  else if q < 5/10 then CPSMatchLevel.GENERIC
                  else CPSMatchLevel.TITLE
                .ok (some (phrase ++ " on youtube", level, data))
        else if c.type = "continue" then
          if youtube_specified then
            .ok (some (phrase, CPSMatchLevel.EXACT, data))
          else
            .ok (some (phrase ++ " on youtube", CPSMatchLevel.GENERIC, data))
        else
          .ok (some (phrase, CPSMatchLevel.GENERIC, data))
    | _ => .error .attributeError
  else
    .ok Option.none

/-- Source lines 222-269: CPS_match_query_phrase notes whether the phrase
mentions youtube, sets the bonus, strips the on_youtube pattern, then runs
the continuation check, the specific query and the generic query in turn,
stopping at the first truthy data, and finally builds the directive.  The
unpacking of the specific_query result raises TypeError when the song
branch returned None. -/
def CPS_match_query_phrase (ext : Oracle) (phrase0 : String) :
    Except PyErr (Option (String × CPSMatchLevel × PyData)) :=
  let youtube_specified := containsSub phrase0 "youtube"
  let bonus : ℚ := if youtube_specified then 1/10 else 0
  let phrase := ext.stripOnYoutube phrase0
  let r1 := continue_playback phrase bonus
  if r1.2.truthy then directive youtube_specified phrase r1.1 r1.2
  else
    match specific_query ext phrase bonus with
    | .error e => .error e
    | .ok Option.none => .error .typeError
    | .ok (some r2) =>
        if r2.2.truthy then directive youtube_specified phrase r2.1 r2.2
        else
          match generic_query ext phrase bonus with
          | .error e => .error e
          | .ok r3 => directive youtube_specified phrase r3.1 r3.2

/-- A base environment for concrete evaluations: every search is empty, no
specific pattern matches, fuzzy_match is constantly zero, the localized by
connector is the word by, the on_youtube substitution is the identity, and
the public playlist resolver finds nothing. -/
def oracleBase : Oracle where
  search := fun _ _ => []
  fm := fun _ _ => 0
  translateBy := "by"
  stripOnYoutube := id
  matchAlbum := fun _ => Option.none
  matchArtist := fun _ => Option.none
  matchSong := fun _ => Option.none
  publicPlaylist := fun _ => NOTHING_FOUND

/-- Environment where every search returns one result and fuzzy_match
gives 0.6, so that the artist resolver scores 0.7 and does not
short-circuit the generic query. -/
def oracleMid : Oracle :=
  { oracleBase with
    search := fun _ _ => [{ artist := "Aerosmith", browseId := "idA" }],
    fm := fun _ _ => 6/10 }

/-- Environment where every search returns one result and fuzzy_match
gives 0.9, so that the clamped artist confidence 1.0 short-circuits the
generic query. -/
def oracleHi : Oracle :=
  { oracleBase with
    search := fun _ _ => [{ artist := "Aerosmith", browseId := "idA" }],
    fm := fun _ _ => 9/10 }

/-- Environment where the song search returns a non-empty result list. -/
def oracleSongHit : Oracle :=
  { oracleBase with
    search := fun _ _ => [{ artist := "", browseId := "vid1" }] }

/-- Environment where the song regex pattern matches every phrase. -/
def oracleSongPattern : Oracle :=
  { oracleBase with matchSong := fun _ => some "imagine" }

/-- Environment where the album search returns one record. -/
def oracleAlbumHit : Oracle :=
  { oracleBase with
    search := fun _ _ => [{ artist := "", browseId := "MPRE1" }] }

/-- Claim C1: the claim says an empty generic-fallback accumulator yields
NOTHING_FOUND instead of a crash.  The code crashes: with every search
empty, the run raises TypeError already at the track step (query_song
returns None, which the unpacking rejects), and best_result applied to an
empty accumulator raises IndexError. -/
theorem generic_query_empty_crashes :
    generic_query oracleBase "nothing here" 0 = .error .typeError ∧
    best_result [] = .error .indexError :=
  ⟨by with_unfolding_all rfl, rfl⟩

/-- Claim C2: the claim says the router never raises when only NotFound
and AmbiguousPattern occur.  With every search empty and no specific
pattern matching, and likewise when the song pattern matches, the query
handler raises TypeError. -/
theorem router_raises_typeerror :
    CPS_match_query_phrase oracleBase "play whatever" = .error .typeError ∧
    CPS_match_query_phrase oracleSongPattern "play the song imagine" = .error .typeError :=
  ⟨by with_unfolding_all rfl, by with_unfolding_all rfl⟩

/-- Claim C3: the claim says the track resolver returns the NOTHING_FOUND
sentinel for every query.  It returns the Python value None instead, also
when the song search has a non-empty result, and that value differs from
NOTHING_FOUND. -/
theorem query_song_returns_none_value :
    query_song oracleSongHit "imagine" 0 = .ok Option.none ∧
    (Except.ok Option.none : Except PyErr (Option (Option ℚ × PyData))) ≠
      .ok (some NOTHING_FOUND) :=
  ⟨by with_unfolding_all rfl, by simp⟩

/-- Claim C4: the claim says the NOTHING_FOUND sentinel has candidate
component none.  The confidence component is indeed none and the sentinel
differs from every real pair of confidence 0.0, but the data component of
the tuple in the code is the float 0.0, not None. -/
theorem nothing_found_components :
    NOTHING_FOUND.1 = Option.none ∧
    NOTHING_FOUND.2 = PyData.num 0 ∧
    NOTHING_FOUND.2 ≠ PyData.none ∧
    ∀ d : PyData, NOTHING_FOUND ≠ (some (0 : ℚ), d) :=
  ⟨rfl, rfl, fun h => PyData.noConfusion h,
    fun _ h => Option.noConfusion (congrArg Prod.fst h)⟩

/-- Claim C5, counterexample: with the localized connector equal to by and
a non-empty album search, the album text containing the connector twice
makes query_album raise ValueError instead of returning the 0.7 result or
NOTHING_FOUND that the claim promises for every album query text. -/
theorem query_album_double_by_raises :
    query_album oracleAlbumHit "a by b by c" 0 = .error .valueError := by
  with_unfolding_all rfl

/-- Claim C5, amended: when the localized by connector occurs at most once
in the album text, query_album searches either the plain album text or the
compound string built from the two split parts, returns the fixed
confidence 0.7 with the browseId of the first record on any non-empty
response, and NOTHING_FOUND on an empty response; three or more split
parts raise ValueError. -/
theorem query_album_behavior (ext : Oracle) (album : String) (bonus : ℚ) :
    ((pySplit album (" " ++ ext.translateBy ++ " ")).length ≤ 1 →
      query_album ext album bonus = albumRest ext album) ∧
    (∀ a b, pySplit album (" " ++ ext.translateBy ++ " ") = [a, b] →
      query_album ext album bonus = albumRest ext ("*" ++ a ++ "* artist:" ++ b)) ∧
    (2 < (pySplit album (" " ++ ext.translateBy ++ " ")).length →
      query_album ext album bonus = .error .valueError) ∧
    (∀ q, (ext.search q "albums" = [] → albumRest ext q = .ok NOTHING_FOUND) ∧
      (∀ r tl, ext.search q "albums" = r :: tl →
        albumRest ext q =
          .ok (some (7/10), PyData.cand { type := "album", browseId := some r.browseId }))) := by
  refine ⟨?_, ?_, ?_, ?_⟩
  · intro hlen
    simp only [query_album]
    split
    · rename_i a b heq
      rw [heq] at hlen
      simp at hlen
    · rw [if_neg (by omega)]
  · intro a b hp
    simp only [query_album]
    rw [hp]
  · intro hlen
    simp only [query_album]
    split
    · rename_i a b heq
      rw [heq] at hlen
      simp at hlen
    · rw [if_pos (by omega)]
  · intro q
    constructor
    · intro hs
      simp only [albumRest]
      rw [hs]
    · intro r tl hs
      simp only [albumRest]
      rw [hs]

/-- Claim C5, witness for the amended statement: a concrete album text with
one by connector splits into the two expected parts, query_album reduces
to the compound-string search, and the non-empty response yields the fixed
0.7 confidence. -/
theorem query_album_behavior_witness :
    pySplit "abbey road by the beatles" (" " ++ oracleAlbumHit.translateBy ++ " ") =
      ["abbey road", "the beatles"] ∧
    query_album oracleAlbumHit "abbey road by the beatles" (1/10) =
      albumRest oracleAlbumHit "*abbey road* artist:the beatles" ∧
    albumRest oracleAlbumHit "*abbey road* artist:the beatles" =
      .ok (some (7/10), PyData.cand { type := "album", browseId := some "MPRE1" }) := by
  refine ⟨by decide, ?_, ?_⟩
  · exact (query_album_behavior oracleAlbumHit "abbey road by the beatles" (1/10)).2.1
      "abbey road" "the beatles" (by decide)
  · exact ((query_album_behavior oracleAlbumHit "abbey road by the beatles" (1/10)).2.2.2
      "*abbey road* artist:the beatles").2 { artist := "", browseId := "MPRE1" } [] rfl

/-- Claim C6: the claim says the generic fallback runs artist, track,
album and public playlist in order, short-circuits above 0.8, accumulates
above 0.5 and finally returns the first accumulated result.  The artist
step and its short-circuit behave as claimed, but the track step always
raises TypeError (query_song returns None), so the album and playlist
steps and the final accumulator access are unreachable: with artist
confidence 0.7 the run crashes, while with clamped artist confidence 1.0
the short-circuit returns before the track step can crash. -/
theorem generic_query_order_and_shortcircuit :
    generic_query oracleMid "dream on" 0 = .error .typeError ∧
    generic_query oracleHi "dream on" 0 =
      .ok (some 1, PyData.cand { type := "artist", browseId := some "idA" }) :=
  ⟨by with_unfolding_all rfl, by with_unfolding_all rfl⟩

/-- Claim C7: best_confidence computes the fuzzy score twice, on the
lowered title and on the lowered title with the trailing annotation
stripped, and returns the larger of the two; hence it is never below the
score of the raw title, in particular for titles carrying a trailing
parenthetical annotation. -/
theorem best_confidence_takes_max (fm : String → String → ℚ) (title query : String) :
    best_confidence fm title query =
      max (fm (pyLower title) query) (fm (pyStrip (pySubAnnot (pyLower title))) query) ∧
    fm (pyLower title) query ≤ best_confidence fm title query :=
  ⟨rfl, le_max_left _ _⟩

/-- Claim C8: for a candidate of one of the six listed types, an explicit
provider mention forces EXACT regardless of the confidence; otherwise the
level is TITLE above 0.9, GENERIC below 0.5 and TITLE in between, and the
phrase is suffixed with the provider hint in every non-EXACT case. -/
theorem directive_leveling (phrase : String) (c : Candidate) (conf : Option ℚ) (q : ℚ)
    (hty : c.type ∈ ["saved_tracks", "album", "artist", "track", "playlist", "show"]) :
    directive true phrase conf (PyData.cand c) =
      .ok (some (phrase, CPSMatchLevel.EXACT, PyData.cand c)) ∧
    ∃ lvl, directive false phrase (some q) (PyData.cand c) =
        .ok (some (phrase ++ " on youtube", lvl, PyData.cand c)) ∧
      (q > 9/10 → lvl = CPSMatchLevel.TITLE) ∧
      (q < 5/10 → lvl = CPSMatchLevel.GENERIC) ∧
      (5/10 ≤ q → q ≤ 9/10 → lvl = CPSMatchLevel.TITLE) := by
  constructor
  · simp [directive, PyData.truthy, hty]
  · refine ⟨if q > 9/10 then CPSMatchLevel.TITLE
      else if q < 5/10 then CPSMatchLevel.GENERIC else CPSMatchLevel.TITLE, ?_, ?_, ?_, ?_⟩
    · simp [directive, PyData.truthy, hty]
    · intro h; rw [if_pos h]
    · intro h
      rw [if_neg (by intro h2; linarith), if_pos h]
    · intro h1 h2
      rw [if_neg (not_lt.mpr h2), if_neg (not_lt.mpr h1)]

/-- Claim C8, witness: a track candidate, which is one of the six listed
types, with an explicit provider mention yields EXACT. -/
theorem directive_leveling_witness :
    (({ type := "track" } : Candidate).type ∈
      ["saved_tracks", "album", "artist", "track", "playlist", "show"]) ∧
    directive true "play it" (some (6/10)) (PyData.cand { type := "track" }) =
      .ok (some ("play it", CPSMatchLevel.EXACT, PyData.cand { type := "track" })) :=
  ⟨by decide,
    (directive_leveling "play it" { type := "track" } (some (6/10)) (6/10) (by decide)).1⟩

/-- Claim C9: with fuzzy scores in the unit interval and a non-negative
incoming bonus, every confidence produced by the artist resolver lies in
the unit interval; the inlined bonus application min(score + bonus, 1) is
monotone in the bonus, clamps at 1, and sends 0.95 plus 0.5 to exactly 1;
the album resolver and the continuation check also only produce
confidences inside the unit interval. -/
theorem resolver_confidence_bounds (ext : Oracle) (artist : String) (bonus : ℚ)
    (hfm : ∀ a b, 0 ≤ ext.fm a b ∧ ext.fm a b ≤ 1) (hb : 0 ≤ bonus) :
    (∀ c d, query_artist ext artist bonus = (some c, d) → 0 ≤ c ∧ c ≤ 1) ∧
    (∀ s b1 b2 : ℚ, b1 ≤ b2 → apply_bonus s b1 ≤ apply_bonus s b2) ∧
    (∀ s b : ℚ, apply_bonus s b ≤ 1) ∧
    apply_bonus (95/100) (5/10) = 1 ∧
    (∀ c d, query_album ext artist bonus = .ok (some c, d) → 0 ≤ c ∧ c ≤ 1) ∧
    (∀ c d, continue_playback artist bonus = (some c, d) → 0 ≤ c ∧ c ≤ 1) := by
  refine ⟨?_, ?_, ?_, ?_, ?_, ?_⟩
  · intro c d h
    unfold query_artist at h
    cases hs : ext.search artist "artists" with
    | nil => rw [hs] at h; exact absurd (congrArg Prod.fst h) (by simp [NOTHING_FOUND])
    | cons d0 tl =>
        rw [hs] at h
        have hc : c = apply_bonus (ext.fm d0.artist (pyLower artist)) (bonus + 1/10) := by
          have := congrArg Prod.fst h
          simpa using this.symm
        subst hc
        unfold apply_bonus
        constructor
        · exact le_min (by linarith [(hfm d0.artist (pyLower artist)).1]) (by norm_num)
        · exact min_le_right _ _
  · intro s b1 b2 hle
    unfold apply_bonus
    exact min_le_min (by linarith) le_rfl
  · intro s b
    exact min_le_right _ _
  · unfold apply_bonus
    rw [min_eq_right (by norm_num)]
  · have hbound : ∀ q0 c d, albumRest ext q0 = .ok (some c, d) → 0 ≤ c ∧ c ≤ 1 := by
      intro q0 c d h
      simp only [albumRest] at h
      split at h
      · simp [NOTHING_FOUND] at h
      · simp only [Except.ok.injEq, Prod.mk.injEq, Option.some.injEq] at h
        obtain ⟨h1, _⟩ := h
        subst h1
        norm_num
    intro c d h
    simp only [query_album] at h
    split at h
    · exact hbound _ c d h
    · split at h
      · simp at h
      · exact hbound _ c d h
  · intro c d h
    unfold continue_playback at h
    by_cases hs : pyStrip artist = "youtube"
    · rw [if_pos hs] at h
      have hc : c = 1 := by
        have := congrArg Prod.fst h
        simpa using this.symm
      subst hc
      norm_num
    · rw [if_neg hs] at h
      exact absurd (congrArg Prod.fst h) (by simp [NOTHING_FOUND])

/-- Claim C9, witness: the constant fuzzy scorer one half satisfies the
unit-interval hypothesis, the zero bonus is non-negative, and the artist
resolver at that oracle produces a confidence in the unit interval. -/
theorem resolver_confidence_bounds_witness :
    (∀ a b, 0 ≤ oracleMid.fm a b ∧ oracleMid.fm a b ≤ 1) ∧ ((0 : ℚ) ≤ 0) ∧
    (∀ c d, query_artist oracleMid "queen" 0 = (some c, d) → 0 ≤ c ∧ c ≤ 1) := by
  have hfm : ∀ a b, 0 ≤ oracleMid.fm a b ∧ oracleMid.fm a b ≤ 1 := by
    intro a b
    constructor <;> norm_num [oracleMid, oracleBase]
  exact ⟨hfm, le_refl 0,
    (resolver_confidence_bounds oracleMid "queen" 0 hfm (le_refl 0)).1⟩

/-- Claim C10: the claim says that when the continuation check, the
specific query and the generic fallback all yield no candidate data, the
handler returns the Python value None.  The fall-through branch of the
handler does return None on falsy data, but it is unreachable: whenever
the first two checks find nothing, the generic fallback raises TypeError
at its track step, so the caller receives an exception instead. -/
theorem cps_no_match_propagates_typeerror :
    CPS_match_query_phrase oracleBase "xyzzy" = .error .typeError ∧
    directive false "xyzzy" Option.none (PyData.num 0) = .ok Option.none :=
  ⟨by with_unfolding_all rfl, by with_unfolding_all rfl⟩
